import Mathlib

/-!
Shallow embedding of `youtube_stream_reupload.py` (repository
`null404org/null404-scripts`, directory `youtube-convert-to-reg-vid`).

The Python module is a sequential orchestrator around three external
collaborators (download engine, OAuth token store, hosting API).  The
embedding below translates the decision logic of the script into pure
Lean functions:

* Python optional strings become `Option String`; Python truthiness of a
  string (`None` and `""` are falsy) is the helper `pyOrO`/`pyStrOr`
  pattern below.
* A dictionary field accessed with `dict.get(key, default)` distinguishes
  a key that is absent (the default is returned) from a key bound to
  `None`; such fields are modelled as `Option (Option α)`: `none` = key
  absent, `some none` = key bound to `None`, `some (some v)` = value `v`.
* External effects (chunk sends, API calls, the interactive OAuth flow)
  are passed in as explicit outcome values, so each control-flow path of
  the script corresponds to a case of the Lean function.
* The float comparison `abs(size - expected) > expected * 0.05` is
  modelled exactly over the integers as `20 * |size - expected| > expected`.
-/

/-! ## Upload retry loop (`upload_video`, lines 288-308) -/

/-- Outcome of one `insert_request.next_chunk()` call inside the upload
loop: a final response carrying the video id, a progress report with the
response still `None`, an `HttpError` with a status code, or any other
exception. -/
inductive ChunkOutcome where
  | success (videoId : String)
  | progress
  | httpError (status : Nat)
  | exception
deriving DecidableEq

/-- Result of the chunk loop: a video id, a terminal failure (`return
None` in the script), or exhaustion of the modelled outcome trace while
the loop would still be running. -/
inductive ChunkLoopResult where
  | ok (videoId : String)
  | failed
  | exhausted
deriving DecidableEq

/-- Status codes the script retries on: `e.resp.status in [500, 502, 503, 504]`. -/
def retriableStatus (s : Nat) : Bool :=
  s == 500 || s == 502 || s == 503 || s == 504

/-- The `while response is None` loop of `upload_video`, driven by a
trace of chunk outcomes.  `retry` is the script's cumulative retry
counter: a retriable `HttpError` increments it and aborts when the
counter exceeds 5 (`retry += 1; if retry > 5: return None`), a
non-retriable `HttpError` is re-raised and caught by the outer handler
(`return None`), and any other exception returns `None` at once. -/
def next_chunk_loop (retry : Nat) : List ChunkOutcome → ChunkLoopResult
  | [] => .exhausted
  | .success id :: _ => .ok id
  | .progress :: rest => next_chunk_loop retry rest
  | .httpError s :: rest =>
    if retriableStatus s then
      if retry + 1 > 5 then .failed
      else next_chunk_loop (retry + 1) rest
    else .failed
  | .exception :: _ => .failed

/-! ## File integrity check (`_verify_file_integrity`, lines 95-123) -/

/-- The observable state of a file on disk, as far as
`_verify_file_integrity` inspects it: existence, size in bytes, and
whether the first 1KB can be read without an exception. -/
structure FileState where
  present : Bool
  size : Nat
  readable1KB : Bool
deriving DecidableEq

/-- Absolute difference on `Nat`, the model of Python's `abs(a - b)` on
integers. -/
def natDist (a b : Nat) : Nat :=
  if a ≥ b then a - b else b - a

/-- `_verify_file_integrity(filepath, expected_filesize)`.  The Python
guard `if expected_filesize and ...` skips the size comparison when the
expected size is `None` **or** `0` (both falsy); the float test
`abs(st_size - expected) > expected * 0.05` is modelled exactly as
`20 * |st_size - expected| > expected`. -/
def verify_file_integrity (f : FileState) (expected_filesize : Option Nat) : Bool :=
  if !f.present then false
  else if f.size == 0 then false
  else if (match expected_filesize with
           | some e => e != 0 && 20 * natDist f.size e > e
           | none => false) then false
  else f.readable1KB

/-! ## Playlist search and selection (`find_playlist_by_name`, lines 71-81;
`process_stream` step 2.5, lines 457-477) -/

/-- A playlist as the script records it (id and title; the description is
never consulted by the selection logic). -/
structure Playlist where
  id : String
  title : String
deriving DecidableEq

/-- Boolean prefix test on character lists (model of Python string
comparison building blocks). -/
def charsPrefix : List Char → List Char → Bool
  | [], _ => true
  | _ :: _, [] => false
  | a :: as, b :: bs => a == b && charsPrefix as bs

/-- Boolean substring test on character lists: does `needle` occur
contiguously inside the second argument? -/
def charsInfix (needle : List Char) : List Char → Bool
  | [] => charsPrefix needle []
  | hay@(_ :: rest) => charsPrefix needle hay || charsInfix needle rest

/-- Python's `needle in hay` on strings: contiguous substring test. -/
def strContains (hay needle : String) : Bool :=
  charsInfix needle.data hay.data

/-- Lowercasing of a string modelled character-wise on its character
list (Python's `str.lower()` maps each character to its lowercase
form). -/
def lowerChars (s : String) : List Char :=
  s.data.map Char.toLower

/-- Case-insensitive substring test, the script's
`search_term.lower() in playlist["title"].lower()`. -/
def strContainsCI (hay needle : String) : Bool :=
  charsInfix (lowerChars needle) (lowerChars hay)

/-- `find_playlist_by_name(search_term)` applied to the playlists the API
returned: keep the playlists whose title contains the search term
case-insensitively, in listing order. -/
def find_playlist_by_name (playlists : List Playlist) (search_term : String) : List Playlist :=
  playlists.filter (fun p => strContainsCI p.title search_term)

/-- The "cybersec tuesday" preference of `process_stream`:
`"cybersec" in match["title"].lower() and "tuesday" in match["title"].lower()`. -/
def isCybersecTuesday (p : Playlist) : Bool :=
  strContainsCI p.title "cybersec" && strContainsCI p.title "tuesday"

/-- Playlist selection of `process_stream` step 2.5 when a search term is
given and no explicit playlist id: filter by title, prefer the first
match whose title contains both "cybersec" and "tuesday", otherwise take
the first match; with no match select nothing.  The second component
records whether the "No playlists found" warning was logged. -/
def select_playlist (playlists : List Playlist) (search_term : String) :
    Option Playlist × Bool :=
  match find_playlist_by_name playlists search_term with
  | [] => (none, true)
  | m :: rest =>
    (some (((m :: rest).find? isCybersecTuesday).getD m), false)

/-! ## Thumbnail discovery (`process_stream`, lines 490-504) -/

/-- The probe order of the script:
`thumbnail_extensions = ["jpg", "jpeg", "png", "webp"]`. -/
def thumbnail_extensions : List String :=
  ["jpg", "jpeg", "png", "webp"]

/-- The candidate path `f"{output_path}/{video_stem}.{ext}"`. -/
def thumbPath (output_path video_stem ext : String) : String :=
  output_path ++ "/" ++ video_stem ++ "." ++ ext

/-- The thumbnail probe loop: walk `thumbnail_extensions` in order and
return the first candidate path that exists (`fileExists` stands for
`os.path.exists`), or `none` when no candidate exists. -/
def findThumbnail (fileExists : String → Bool) (output_path video_stem : String) :
    Option String :=
  (thumbnail_extensions.find? (fun ext => fileExists (thumbPath output_path video_stem ext))).map
    (fun ext => thumbPath output_path video_stem ext)

/-! ## Metadata composition (`process_stream` step 3, lines 479-515, and
`upload_video`, lines 239-275) -/

/-- The sidecar metadata dictionary (`info`) as the composition logic
reads it.  `title`, `description` and `tags` are read with
`info.get(key, default)`, so a missing key (`none`) is distinguished from
a key bound to `None` (`some none`); `upload_date` and `language` are
read with `info.get(key)`, which conflates the two. -/
structure StreamInfo where
  title : Option (Option String)
  description : Option (Option String)
  tags : Option (Option (List String))
  upload_date : Option String
  language : Option String
deriving DecidableEq

/-- `dict.get(key, default)`: the default only applies when the key is
absent, a key bound to `None` yields `None`. -/
def dget {α : Type} (v : Option (Option α)) (d : α) : Option α :=
  match v with
  | none => some d
  | some x => x

/-- Python `x or y` where `x` is an optional string (`None` and `""` are
falsy) and the result may still be `None`. -/
def pyOrO (x : Option String) (y : Option String) : Option String :=
  match x with
  | some s => if s = "" then y else some s
  | none => y

/-- Python `x or y` where `x` is an optional list (`None` and `[]` are
falsy). -/
def pyOrListO (x : Option (List String)) (y : Option (List String)) :
    Option (List String) :=
  match x with
  | some l => if l = [] then y else some l
  | none => y

/-- Python `x or d` collapsing to a plain string (`None` and `""` fall
back to the default `d`). -/
def pyStrOr (x : Option String) (d : String) : String :=
  match x with
  | some s => if s = "" then d else s
  | none => d

/-- Python `x or d` collapsing to a plain list. -/
def pyListOr (x : Option (List String)) (d : List String) : List String :=
  match x with
  | some l => if l = [] then d else l
  | none => d

/-- The arguments `process_stream` computes in step 3 and passes to
`upload_video`. -/
structure UploadArgs where
  title : Option String
  description : Option String
  tags : Option (List String)
  category_id : String
  recording_date : Option String
  default_language : Option String
deriving DecidableEq

/-- Step 3 of `process_stream`: merge the caller overrides with the
sidecar metadata.  With `info` present: `upload_title or
info.get("title", "Unknown Title")` and so on; with `info` absent the
hard-coded fallbacks are used directly. -/
def prepare_metadata (upload_title upload_description : Option String)
    (upload_tags : Option (List String)) (info : Option StreamInfo)
    (video_stem : String) : UploadArgs :=
  match info with
  | some i =>
    { title := pyOrO upload_title (dget i.title "Unknown Title")
      description := pyOrO upload_description (dget i.description "No description available")
      tags := pyOrListO upload_tags (dget i.tags [])
      category_id := "28"
      recording_date := i.upload_date
      default_language := i.language }
  | none =>
    { title := pyOrO upload_title (some ("Re-uploaded Stream - " ++ video_stem))
      description := pyOrO upload_description
        (some "Video downloaded from live stream and re-uploaded.")
      tags := pyOrListO upload_tags (some [])
      category_id := "28"
      recording_date := none
      default_language := none }

/-- Recording-date handling of `upload_video` (lines 253-263).  The first
component is the `recordingDetails.recordingDate` value (present exactly
when the input is an 8-digit numeric string), the second records whether
the "Invalid recording date format" warning was logged.  In the source
that warning sits in an `except Exception` handler, and `len`, `isdigit`
and slicing never raise on a string, so for string input the handler is
unreachable and no warning is ever emitted. -/
def recordingDetailsOf (recording_date : Option String) : Option String × Bool :=
  match recording_date with
  | none => (none, false)
  | some d =>
    if d = "" then (none, false)
    else if d.data.length == 8 && d.data.all Char.isDigit then
      (some (String.mk (d.data.take 4) ++ "-" ++ String.mk ((d.data.drop 4).take 2)
             ++ "-" ++ String.mk ((d.data.drop 6).take 2) ++ "T00:00:00.000Z"), false)
    else (none, false)

/-- Language defaulting of `upload_video` (lines 266-275):
`default_language if (default_language and len(default_language) <= 5) else "en"`. -/
def langOrEn (l : Option String) : String :=
  match l with
  | some s => if s ≠ "" && s.length ≤ 5 then s else "en"
  | none => "en"

/-- The `snippet` part of the upload request body. -/
structure Snippet where
  title : String
  description : String
  tags : List String
  categoryId : String
  defaultLanguage : String
  defaultAudioLanguage : String
deriving DecidableEq

/-- The `status` part of the upload request body. -/
structure VideoStatus where
  privacyStatus : String
  selfDeclaredMadeForKids : Bool
deriving DecidableEq

/-- The upload request body `upload_video` builds; `recordingDetails`
holds the `recordingDate` string when the field is present. -/
structure UploadBody where
  snippet : Snippet
  status : VideoStatus
  recordingDetails : Option String
deriving DecidableEq

/-- The body construction of `upload_video` (lines 239-275): defaulting
by Python truthiness for title, description and tags, the fixed `status`
block, the optional `recordingDetails` block, and the language
defaulting. -/
def build_body (video_stem : String) (title description : Option String)
    (tags : Option (List String)) (category_id privacy_status : String)
    (recording_date default_language default_audio_language : Option String) :
    UploadBody :=
  { snippet :=
      { title := pyStrOr title ("Re-uploaded Stream - " ++ video_stem)
        description := pyStrOr description
          "Video downloaded from live stream and re-uploaded."
        tags := pyListOr tags []
        categoryId := category_id
        defaultLanguage := langOrEn default_language
        defaultAudioLanguage := langOrEn default_audio_language }
    status :=
      { privacyStatus := privacy_status
        selfDeclaredMadeForKids := false }
    recordingDetails := (recordingDetailsOf recording_date).fst }

/-- The composition `process_stream` step 3 followed by `upload_video`'s
body construction: the request body actually sent for a given set of
caller overrides, sidecar metadata and video file stem.  `process_stream`
passes no `default_audio_language`, so that argument stays `None`. -/
def composed_body (upload_title upload_description : Option String)
    (upload_tags : Option (List String)) (info : Option StreamInfo)
    (video_stem privacy_status : String) : UploadBody :=
  let a := prepare_metadata upload_title upload_description upload_tags info video_stem
  build_body video_stem a.title a.description a.tags a.category_id privacy_status
    a.recording_date a.default_language none

/-! ## Spec-side three-tier field resolution (refinement targets for the
metadata-precedence claim).  These definitions follow the specification's
words — override wins over extracted value wins over default — with the
default-title behaviour as the code forces it to be amended: sidecar
metadata present but without a title key yields the fixed string
`"Unknown Title"`, every other title-less case yields the stem-derived
default. -/

/-- Spec-side resolution of the extracted/default tier of the title. -/
def resolveExtractedTitle (info : Option StreamInfo) (stem : String) : String :=
  match info with
  | none => "Re-uploaded Stream - " ++ stem
  | some i =>
    match i.title with
    | none => "Unknown Title"
    | some none => "Re-uploaded Stream - " ++ stem
    | some (some s) => if s = "" then "Re-uploaded Stream - " ++ stem else s

/-- Spec-side three-tier resolution of the composed title: a non-empty
override wins, otherwise the extracted/default tier decides. -/
def resolveTitle (override : Option String) (info : Option StreamInfo)
    (stem : String) : String :=
  match override with
  | some s => if s = "" then resolveExtractedTitle info stem else s
  | none => resolveExtractedTitle info stem

/-- Spec-side resolution of the extracted/default tier of the
description. -/
def resolveExtractedDescription (info : Option StreamInfo) : String :=
  match info with
  | none => "Video downloaded from live stream and re-uploaded."
  | some i =>
    match i.description with
    | none => "No description available"
    | some none => "Video downloaded from live stream and re-uploaded."
    | some (some s) =>
      if s = "" then "Video downloaded from live stream and re-uploaded." else s

/-- Spec-side three-tier resolution of the composed description. -/
def resolveDescription (override : Option String) (info : Option StreamInfo) : String :=
  match override with
  | some s => if s = "" then resolveExtractedDescription info else s
  | none => resolveExtractedDescription info

/-- Spec-side three-tier resolution of the composed tags: a non-empty
override wins, otherwise non-empty extracted tags, otherwise the empty
list. -/
def resolveTags (override : Option (List String)) (info : Option StreamInfo) :
    List String :=
  match override with
  | some l =>
    if l = [] then
      match info with
      | some i => pyListOr (dget i.tags []) []
      | none => []
    else l
  | none =>
    match info with
    | some i => pyListOr (dget i.tags []) []
    | none => []

/-! ## Authentication (`authenticate_youtube`, lines 125-154) -/

/-- The credential object loaded from the token file, reduced to the
three attributes `authenticate_youtube` branches on. -/
structure Creds where
  valid : Bool
  expired : Bool
  refresh_token : Bool
deriving DecidableEq

/-- Result of `authenticate_youtube`, together with whether the token
file was (re)written during the call: `ok` models `return True`, `failed`
models `return False` (missing credentials file), `raised` models an
exception escaping the call (the function has no handler of its own). -/
inductive AuthResult where
  | ok (wroteToken : Bool)
  | failed (wroteToken : Bool)
  | raised (wroteToken : Bool)
deriving DecidableEq

/-- Whether the token file was written during the call. -/
def AuthResult.wrote : AuthResult → Bool
  | .ok w => w
  | .failed w => w
  | .raised w => w

/-- `authenticate_youtube`.  Inputs: the parsed token file when it
exists (`tokenCreds`), whether the credentials file exists, and whether
the two external steps — `creds.refresh(Request())` and
`flow.run_local_server(port=0)` — succeed or raise.  The token file is
written exactly on the two paths that fall through the refresh/flow
branch to `token.write(creds.to_json())`; the valid-token reuse path
skips the whole block. -/
def authenticate_youtube (tokenCreds : Option Creds) (credFileExists : Bool)
    (refreshSucceeds : Bool) (flowSucceeds : Bool) : AuthResult :=
  let interactive : AuthResult :=
    if !credFileExists then .failed false
    else if flowSucceeds then .ok true
    else .raised false
  match tokenCreds with
  | none => interactive
  | some c =>
    if c.valid then .ok false
    else if c.expired && c.refresh_token then
      if refreshSucceeds then .ok true else .raised false
    else interactive

/-! ## Post-upload side effects (`_upload_thumbnail`, lines 334-375;
`_add_to_playlist`, lines 415-430; `upload_video` success branch,
lines 310-325; `process_stream` result, lines 531-536) -/

/-- `_upload_thumbnail(video_id, thumbnail_file)`.  The whole body is
wrapped in `try/except Exception` that logs a warning, so the function
always returns; its result is the list of warnings logged.  External
steps are passed in as outcomes: `apiSet` / `apiSetConverted` are the
`thumbnails().set(...).execute()` calls (`Except.error` = the call
raised), `converted` is the result of `_convert_thumbnail_to_jpeg`
(`none` = conversion unavailable or failed), `removeOk` is whether
deleting the temporary converted file succeeded. -/
def upload_thumbnail (thumbnail_file : String) (apiSet : Except String Unit)
    (converted : Option String) (apiSetConverted : Except String Unit)
    (removeOk : Bool) : List String :=
  let ext := (thumbnail_file.toLower.splitOn ".").getLastD ""
  if ext = "jpg" || ext = "jpeg" || ext = "png" then
    match apiSet with
    | .ok _ => []
    | .error e => ["Failed to upload thumbnail: " ++ e]
  else
    match converted with
    | some p =>
      match apiSetConverted with
      | .ok _ =>
        if removeOk then []
        else ["Could not remove converted thumbnail " ++ p]
      | .error e => ["Failed to upload thumbnail: " ++ e]
    | none => ["Could not convert thumbnail format " ++ ext]

/-- `_add_to_playlist(video_id, playlist_id)`: the `playlistItems()
.insert(...).execute()` call is wrapped in `try/except Exception`
logging a warning, so the function always returns; its result is the
list of warnings logged. -/
def add_to_playlist (apiInsert : Except String Unit) : List String :=
  match apiInsert with
  | .ok _ => []
  | .error e => ["Failed to add video to playlist: " ++ e]

/-- The external inputs of one `_upload_thumbnail` call, bundled. -/
structure ThumbCall where
  thumbnail_file : String
  apiSet : Except String Unit
  converted : Option String
  apiSetConverted : Except String Unit
  removeOk : Bool

/-- The success branch of `upload_video` (lines 310-325): after the chunk
loop produced a response, optionally run `_upload_thumbnail` and
`_add_to_playlist`, then `return video_id`.  Result: the returned video
id and the warnings the side effects logged. -/
def upload_video_finish (video_id : String) (thumb : Option ThumbCall)
    (playlist : Option (Except String Unit)) : Option String × List String :=
  let w1 := match thumb with
    | some t => upload_thumbnail t.thumbnail_file t.apiSet t.converted
        t.apiSetConverted t.removeOk
    | none => []
  let w2 := match playlist with
    | some o => add_to_playlist o
    | none => []
  (some video_id, w1 ++ w2)

/-- End of `process_stream` (lines 531-536): the run reports success
exactly when `upload_video` returned a video id. -/
def process_reports_success (video_id : Option String) : Bool :=
  video_id.isSome

/-! ## Helper lemmas -/

/-- `charsPrefix` decides `List.IsPrefix`. -/
theorem charsPrefix_iff (n h : List Char) : charsPrefix n h = true ↔ n <+: h := by
  induction n generalizing h with
  | nil => simp [charsPrefix]
  | cons a as ih =>
    cases h with
    | nil => simp [charsPrefix]
    | cons b bs => simp [charsPrefix, List.cons_prefix_cons, ih]

/-- `charsInfix` decides `List.IsInfix`. -/
theorem charsInfix_iff (n h : List Char) : charsInfix n h = true ↔ n <:+: h := by
  induction h with
  | nil => simp [charsInfix, charsPrefix_iff]
  | cons b bs ih => simp [charsInfix, charsPrefix_iff, List.infix_cons_iff, ih]

/-! ## Claim theorems -/

/-- C1: in the chunked upload loop of `upload_video`, a chunk attempt
failing with HTTP 500, 502, 503 or 504 increments the retry counter and
resends (as long as at most 5 retries are consumed); once a retriable
failure would push the counter past 5, the upload aborts with no video
id; any other HTTP error, and any unexpected exception, aborts at once
without retry.  In particular 3 consecutive 503s followed by success
yields the video id, and 6 consecutive 503s yields failure. -/
theorem upload_retry_policy :
    (∀ id : String,
      next_chunk_loop 0 (List.replicate 3 (.httpError 503) ++ [.success id]) = .ok id)
  ∧ next_chunk_loop 0 (List.replicate 6 (.httpError 503)) = .failed
  ∧ (∀ (s retry : Nat) (rest : List ChunkOutcome),
      retriableStatus s = true → retry + 1 ≤ 5 →
      next_chunk_loop retry (.httpError s :: rest) = next_chunk_loop (retry + 1) rest)
  ∧ (∀ (s retry : Nat) (rest : List ChunkOutcome),
      retriableStatus s = true → retry + 1 > 5 →
      next_chunk_loop retry (.httpError s :: rest) = .failed)
  ∧ (∀ (s retry : Nat) (rest : List ChunkOutcome),
      retriableStatus s = false →
      next_chunk_loop retry (.httpError s :: rest) = .failed)
  ∧ (∀ (retry : Nat) (rest : List ChunkOutcome),
      next_chunk_loop retry (.exception :: rest) = .failed) := by
  refine ⟨fun id => rfl, by decide, ?_, ?_, ?_, fun _ _ => rfl⟩
  · intro s retry rest hs hle
    simp only [next_chunk_loop, hs, if_true]
    rw [if_neg (by omega)]
  · intro s retry rest hs hgt
    simp only [next_chunk_loop, hs, if_true]
    rw [if_pos hgt]
  · intro s retry rest hs
    simp [next_chunk_loop, hs]

/-- C1 witness: the retry policy evaluated at concrete traces. -/
theorem upload_retry_policy_witness :
    next_chunk_loop 0 (List.replicate 3 (.httpError 503) ++ [.success "vid"]) = .ok "vid"
  ∧ next_chunk_loop 2 [.httpError 502] = next_chunk_loop 3 []
  ∧ next_chunk_loop 5 [.httpError 500, .success "vid"] = .failed
  ∧ next_chunk_loop 0 [.httpError 404] = .failed
  ∧ next_chunk_loop 0 [.exception] = .failed :=
  ⟨upload_retry_policy.1 "vid",
   upload_retry_policy.2.2.1 502 2 [] (by decide) (by decide),
   upload_retry_policy.2.2.2.1 500 5 [.success "vid"] (by decide) (by decide),
   upload_retry_policy.2.2.2.2.1 404 0 [] (by decide),
   upload_retry_policy.2.2.2.2.2 0 []⟩

/-- C3: evaluation of the recording-date handling at the failing input.
For the non-8-digit input `"2024-01-15"` the field is omitted but **no
warning is logged** (the claim and the spec say one is): the script's
"Invalid recording date format" message sits in an `except Exception`
handler that string inputs can never reach.  For `"20240115"` the
claimed conversion does hold. -/
theorem recording_date_eval :
    recordingDetailsOf (some "2024-01-15") = (none, false)
  ∧ recordingDetailsOf (some "20240115") = (some "2024-01-15T00:00:00.000Z", false) := by
  constructor <;> decide

/-- C9: every upload request body built by `upload_video` sets
`status.selfDeclaredMadeForKids` to `False`, for all inputs. -/
theorem upload_body_made_for_kids_false :
    ∀ (video_stem : String) (title description : Option String)
      (tags : Option (List String)) (category_id privacy_status : String)
      (recording_date default_language default_audio_language : Option String),
      (build_body video_stem title description tags category_id privacy_status
        recording_date default_language
        default_audio_language).status.selfDeclaredMadeForKids = false :=
  fun _ _ _ _ _ _ _ _ _ => rfl

/-- C7: once the video upload itself has succeeded, every combination of
outcomes of the post-upload side effects (thumbnail attach with or
without conversion, playlist attach, including every failing outcome)
still yields the video id from `upload_video`, and the run still reports
success. -/
theorem side_effect_failures_swallowed :
    ∀ (video_id : String) (thumb : Option ThumbCall)
      (playlist : Option (Except String Unit)),
      (upload_video_finish video_id thumb playlist).fst = some video_id
    ∧ process_reports_success (upload_video_finish video_id thumb playlist).fst = true :=
  fun _ _ _ => ⟨rfl, rfl⟩

/-- C4 counterexample: the claim says a supplied expected size makes any
file deviating by more than 5% of it invalid.  With expected size 0
supplied, a 100-byte readable file deviates by 100 bytes, which is more
than 5% of 0, yet `_verify_file_integrity` declares it valid: the Python
guard `if expected_filesize and ...` treats the falsy value `0` exactly
like `None` and skips the size comparison. -/
theorem verify_integrity_zero_expected_counterexample :
    verify_file_integrity ⟨true, 100, true⟩ (some 0) = true
  ∧ 20 * natDist 100 0 > 0 := by
  decide

/-- C4 amended: for every existing file, the integrity check accepts
exactly the files that are non-empty, whose size is within 5% of the
expected size whenever a **nonzero** expected size is supplied (an
expected size of 0, like an absent one, disables the comparison), and
whose first 1KB is readable. -/
theorem verify_integrity_amended :
    ∀ (f : FileState) (expected : Option Nat), f.present = true →
      (verify_file_integrity f expected = true ↔
        f.size ≠ 0
        ∧ (∀ e, expected = some e → e ≠ 0 → 20 * natDist f.size e ≤ e)
        ∧ f.readable1KB = true) := by
  rintro ⟨p, sz, rd⟩ expected hp
  subst hp
  rcases expected with _ | e
  · by_cases hsz : sz = 0
    · subst hsz; simp [verify_file_integrity]
    · simp [verify_file_integrity, hsz]
  · by_cases hsz : sz = 0
    · subst hsz; simp [verify_file_integrity]
    · by_cases he : e = 0
      · subst he; simp [verify_file_integrity, hsz]
      · by_cases hd : 20 * natDist sz e > e
        · simp [verify_file_integrity, hsz, he, hd]
        · simp [verify_file_integrity, hsz, he, hd]
          omega

/-- C4 witness: a 100-byte readable file with expected size 98 (within
5%) is valid. -/
theorem verify_integrity_amended_witness :
    verify_file_integrity ⟨true, 100, true⟩ (some 98) = true :=
  (verify_integrity_amended ⟨true, 100, true⟩ (some 98) rfl).mpr
    ⟨by decide, fun e he h0 => by injection he with h; subst h; decide, rfl⟩

/-- C10: an override supplied as an empty value (empty string for title
or description, empty list for tags) produces exactly the request body
that no override at all produces: field precedence is decided by Python
truthiness, not by presence. -/
theorem empty_override_like_no_override :
    ∀ (ot od : Option String) (tg : Option (List String)) (info : Option StreamInfo)
      (stem priv : String),
      composed_body (some "") od tg info stem priv = composed_body none od tg info stem priv
    ∧ composed_body ot (some "") tg info stem priv = composed_body ot none tg info stem priv
    ∧ composed_body ot od (some []) info stem priv
        = composed_body ot od none info stem priv := by
  intro ot od tg info stem priv
  refine ⟨?_, ?_, ?_⟩ <;>
    rcases info with _ | i <;>
      simp [composed_body, prepare_metadata, pyOrO, pyOrListO]

/-- C8: `authenticate_youtube` rewrites the token file exactly on the
two paths where a refresh or a fresh interactive authorization succeeded,
and a persisted token that loads valid is reused with no write (and the
call succeeds).  The external refresh and interactive-flow steps are
modelled by their success flags; when one of them raises, the exception
escapes before the write. -/
theorem token_write_policy :
    ∀ (tc : Option Creds) (credFileExists refreshOk flowOk : Bool),
      ((authenticate_youtube tc credFileExists refreshOk flowOk).wrote = true ↔
        ((∃ c, tc = some c ∧ c.valid = false ∧ c.expired = true ∧ c.refresh_token = true)
          ∧ refreshOk = true)
        ∨ ((tc = none ∨ ∃ c, tc = some c ∧ c.valid = false
              ∧ (c.expired = false ∨ c.refresh_token = false))
            ∧ credFileExists = true ∧ flowOk = true))
    ∧ (∀ c, tc = some c → c.valid = true →
        authenticate_youtube tc credFileExists refreshOk flowOk = .ok false) := by
  rintro (_ | ⟨v, e, r⟩) cf rf fl <;>
    [skip; (cases v <;> cases e <;> cases r)] <;>
    cases cf <;> cases rf <;> cases fl <;>
      simp [authenticate_youtube, AuthResult.wrote]

/-- C8 witness: the policy evaluated at concrete credential states —
valid token reused without a write; successful refresh writes;
successful fresh authorization writes. -/
theorem token_write_policy_witness :
    authenticate_youtube (some ⟨true, false, false⟩) false false false = .ok false
  ∧ (authenticate_youtube (some ⟨false, true, true⟩) false true false).wrote = true
  ∧ (authenticate_youtube none true false true).wrote = true :=
  ⟨(token_write_policy (some ⟨true, false, false⟩) false false false).2 _ rfl rfl,
   (token_write_policy (some ⟨false, true, true⟩) false true false).1.mpr
     (Or.inl ⟨⟨_, rfl, rfl, rfl, rfl⟩, rfl⟩),
   (token_write_policy none true false true).1.mpr
     (Or.inr ⟨Or.inl rfl, rfl, rfl⟩)⟩

/-- C5: with a search term and no explicit playlist id, a playlist is a
match exactly when its title contains the search term as a
case-insensitive substring (stated via `List.IsInfix` on the lowered
character lists); among the matches a playlist whose title contains both
"cybersec" and "tuesday" is selected when one exists, otherwise the
first match; with no matches nothing is selected and the warning is
logged. -/
theorem playlist_selection_spec :
    ∀ (playlists : List Playlist) (term : String),
      (∀ p, p ∈ find_playlist_by_name playlists term ↔
        p ∈ playlists ∧ lowerChars term <:+: lowerChars p.title)
    ∧ (find_playlist_by_name playlists term = [] →
        select_playlist playlists term = (none, true))
    ∧ (∀ m ms, find_playlist_by_name playlists term = m :: ms →
        (∃ q ∈ m :: ms, isCybersecTuesday q = true) →
        ∃ sel, select_playlist playlists term = (some sel, false)
          ∧ sel ∈ m :: ms ∧ isCybersecTuesday sel = true)
    ∧ (∀ m ms, find_playlist_by_name playlists term = m :: ms →
        (∀ q ∈ m :: ms, isCybersecTuesday q = false) →
        select_playlist playlists term = (some m, false)) := by
  intro playlists term
  refine ⟨?_, ?_, ?_, ?_⟩
  · intro p
    simp [find_playlist_by_name, List.mem_filter, strContainsCI, charsInfix_iff]
  · intro h
    simp [select_playlist, h]
  · intro m ms h hex
    obtain ⟨q, hq, hcyb⟩ := hex
    cases hfind : (m :: ms).find? isCybersecTuesday with
    | none =>
      exact absurd hcyb (by simpa using List.find?_eq_none.mp hfind q hq)
    | some q' =>
      exact ⟨q', by simp [select_playlist, h, hfind],
        List.mem_of_find?_eq_some hfind, List.find?_some hfind⟩
  · intro m ms h hall
    have hfind : (m :: ms).find? isCybersecTuesday = none :=
      List.find?_eq_none.mpr (fun x hx => by simp [hall x hx])
    simp [select_playlist, h, hfind]

/-- C5 witness: the selection evaluated at the specification's concrete
examples — matches with a "cybersec tuesday" title prefer it, matches
without one take the first, and no matches select nothing with a
warning. -/
theorem playlist_selection_spec_witness :
    select_playlist [⟨"a", "Foo"⟩, ⟨"b", "Bar"⟩] "" = (some ⟨"a", "Foo"⟩, false)
  ∧ select_playlist [⟨"a", "Foo"⟩] "zzz" = (none, true)
  ∧ (Playlist.mk "id1" "Cybersec Tuesday Talks" ∈
      find_playlist_by_name [⟨"id1", "Cybersec Tuesday Talks"⟩, ⟨"id2", "Other"⟩]
        "cybersec") :=
  ⟨(playlist_selection_spec _ _).2.2.2 ⟨"a", "Foo"⟩ [⟨"b", "Bar"⟩] (by decide) (by decide),
   (playlist_selection_spec _ _).2.1 (by decide),
   ((playlist_selection_spec _ _).1 _).mpr
     ⟨by decide, (charsInfix_iff _ _).mp (by decide)⟩⟩

/-- C6: thumbnail discovery probes the sibling paths with extensions
jpg, jpeg, png, webp in exactly that order and keeps the first existing
candidate: the result is `none` exactly when no candidate exists, any
result is an existing candidate from the probe list, an existing `jpg`
always wins, and with `jpg`/`jpeg` absent an existing `png` wins — in
particular over a `webp` that also exists. -/
theorem thumbnail_priority :
    ∀ (fileExists : String → Bool) (out stem : String),
      (findThumbnail fileExists out stem = none ↔
        ∀ ext ∈ thumbnail_extensions, fileExists (thumbPath out stem ext) = false)
    ∧ (∀ p, findThumbnail fileExists out stem = some p →
        ∃ ext ∈ thumbnail_extensions, p = thumbPath out stem ext
          ∧ fileExists p = true)
    ∧ (fileExists (thumbPath out stem "jpg") = true →
        findThumbnail fileExists out stem = some (thumbPath out stem "jpg"))
    ∧ (fileExists (thumbPath out stem "jpg") = false →
       fileExists (thumbPath out stem "jpeg") = false →
       fileExists (thumbPath out stem "png") = true →
        findThumbnail fileExists out stem = some (thumbPath out stem "png")) := by
  intro fileExists out stem
  refine ⟨?_, ?_, ?_, ?_⟩
  · simp [findThumbnail, List.find?_eq_none]
  · intro p hp
    obtain ⟨ext, hfind, hmap⟩ := Option.map_eq_some'.mp hp
    exact ⟨ext, List.mem_of_find?_eq_some hfind, hmap.symm,
      by subst hmap; simpa using List.find?_some hfind⟩
  · intro h1
    simp [findThumbnail, thumbnail_extensions, List.find?, h1]
  · intro h1 h2 h3
    simp [findThumbnail, thumbnail_extensions, List.find?, h1, h2, h3]

/-- C6 witness: with both `out/video.png` and `out/video.webp` present
(and no jpg/jpeg), the png candidate is chosen; with an existing jpg the
jpg is chosen. -/
theorem thumbnail_priority_witness :
    findThumbnail (fun s => s == "out/video.png" || s == "out/video.webp") "out" "video"
      = some (thumbPath "out" "video" "png")
  ∧ findThumbnail (fun _ => false) "out" "video" = none
  ∧ findThumbnail (fun s => s == "out/video.jpg") "out" "video"
      = some (thumbPath "out" "video" "jpg") :=
  ⟨(thumbnail_priority _ "out" "video").2.2.2 (by decide) (by decide) (by decide),
   (thumbnail_priority (fun _ => false) "out" "video").1.mpr (fun ext _ => rfl),
   (thumbnail_priority _ "out" "video").2.2.1 (by decide)⟩

/-- C2 counterexample: with no caller override and sidecar metadata
present but lacking a title key (so neither an override title nor an
extracted title exists), the composed title is the fixed string
`"Unknown Title"` — the same for every file name stem — and not a title
derived from the video file's name stem, because `process_stream` uses
`info.get("title", "Unknown Title")` and the truthy default then
bypasses the stem-derived fallback of `upload_video`. -/
theorem composed_title_unknown_counterexample :
    (composed_body none none none
      (some { title := none, description := none, tags := none,
              upload_date := none, language := none }) "clip" "private").snippet.title
      = "Unknown Title"
  ∧ (composed_body none none none
      (some { title := none, description := none, tags := none,
              upload_date := none, language := none }) "stream42" "private").snippet.title
      = "Unknown Title" := by
  constructor <;> decide

/-- C2 amended: each composed field follows three-tier precedence —
non-empty caller override, else non-empty extracted sidecar value, else
the built-in default — where the default title is derived from the file
name stem when sidecar metadata is absent entirely or carries a
`None`/empty title, but is the fixed string `"Unknown Title"` when
sidecar metadata is present without a title key.  Stated as equality of
the source-composed fields with spec-side per-field resolvers. -/
theorem composed_metadata_precedence :
    ∀ (ot od : Option String) (tg : Option (List String)) (info : Option StreamInfo)
      (stem priv : String),
      (composed_body ot od tg info stem priv).snippet.title = resolveTitle ot info stem
    ∧ (composed_body ot od tg info stem priv).snippet.description
        = resolveDescription od info
    ∧ (composed_body ot od tg info stem priv).snippet.tags = resolveTags tg info := by
  intro ot od tg info stem priv
  refine ⟨?_, ?_, ?_⟩
  · rcases info with _ | ⟨it, idesc, itg, iud, il⟩
    · rcases ot with _ | s
      · simp [composed_body, prepare_metadata, build_body, pyOrO, pyStrOr,
          resolveTitle, resolveExtractedTitle]
      · by_cases hs : s = "" <;>
          simp [composed_body, prepare_metadata, build_body, pyOrO, pyStrOr,
            resolveTitle, resolveExtractedTitle, hs]
    · rcases it with _ | ⟨_ | t⟩ <;> rcases ot with _ | s <;>
        [skip; (by_cases hs : s = ""); skip; (by_cases hs : s = "");
         skip; (by_cases hs : s = "")] <;>
        simp_all [composed_body, prepare_metadata, build_body, pyOrO, pyStrOr, dget,
          resolveTitle, resolveExtractedTitle]
  · rcases info with _ | ⟨it, idesc, itg, iud, il⟩
    · rcases od with _ | s
      · simp [composed_body, prepare_metadata, build_body, pyOrO, pyStrOr,
          resolveDescription, resolveExtractedDescription]
      · by_cases hs : s = "" <;>
          simp [composed_body, prepare_metadata, build_body, pyOrO, pyStrOr,
            resolveDescription, resolveExtractedDescription, hs]
    · rcases idesc with _ | ⟨_ | t⟩ <;> rcases od with _ | s <;>
        [skip; (by_cases hs : s = ""); skip; (by_cases hs : s = "");
         skip; (by_cases hs : s = "")] <;>
        simp_all [composed_body, prepare_metadata, build_body, pyOrO, pyStrOr, dget,
          resolveDescription, resolveExtractedDescription]
  · rcases info with _ | ⟨it, idesc, itg, iud, il⟩
    · rcases tg with _ | l
      · simp [composed_body, prepare_metadata, build_body, pyOrListO, pyListOr,
          resolveTags]
      · by_cases hl : l = [] <;>
          simp [composed_body, prepare_metadata, build_body, pyOrListO, pyListOr,
            resolveTags, hl]
    · rcases itg with _ | ⟨_ | tl⟩ <;> rcases tg with _ | l <;>
        [skip; (by_cases hl : l = []); skip; (by_cases hl : l = []);
         skip; (by_cases hl : l = [])] <;>
        simp_all [composed_body, prepare_metadata, build_body, pyOrListO, pyListOr, dget,
          resolveTags]
